import Mathlib

/-!
Shallow embedding of the stateless MCP weather server
(source file src/unnamed/part_000).

Modelling conventions:
- JavaScript numbers are modelled as rationals; the concrete payloads in the
  claims are exact decimals, on which rational and IEEE-double arithmetic
  agree.  Math.round(x) (round half toward positive infinity) is modelled as
  floor(x + 1/2).
- JavaScript template-literal rendering of a number is modelled by a decimal
  renderer that prints the integer part and the fractional digits with no
  trailing zeros, matching the JS shortest-roundtrip output on every
  terminating decimal used in this development (fuel bounds the number of
  fractional digits, as a double has finitely many).
- A thrown exception is an Except.error value; the upstream fetch is an
  oracle parameter from the request URL to an HTTP outcome, and the handler
  result carries the number of outbound fetch calls performed.
-/

namespace WeatherMCP

set_option maxRecDepth 10000

/-- JSON values as produced by JSON.parse (an object keeps its field order). -/
inductive Json where
  | null : Json
  | bool (b : Bool) : Json
  | num (q : ℚ) : Json
  | str (s : String) : Json
  | arr (elems : List Json) : Json
  | obj (fields : List (String × Json)) : Json

/-- Property access j.key; a missing property (undefined) is none. -/
def Json.lookup : Json → String → Option Json
  | .obj fields, key => List.lookup key fields
  | _, _ => none

/-- Whether the value has the given object key. -/
def Json.hasKey (j : Json) (k : String) : Bool :=
  (j.lookup k).isSome

/-- Object field access defaulting to null (used only to observe values). -/
def Json.sub (j : Json) (k : String) : Json :=
  (j.lookup k).getD .null

/-- Math.round: rounds half toward positive infinity, like JavaScript. -/
def jsRound (q : ℚ) : ℤ :=
  (q + 1/2).floor

/-- Math.round(x * 10) / 10, the one-decimal rounding used at lines 112 and 114. -/
def round1 (q : ℚ) : ℚ :=
  (jsRound (q * 10) : ℚ) / 10

/-- Fractional digits of a rational in [0, 1), most significant first,
trailing zeros omitted; fuel bounds the digit count. -/
def fracDigits : ℚ → Nat → String
  | _, 0 => ""
  | q, n + 1 =>
      if q = 0 then ""
      else
        let d := (q * 10).floor
        toString d.toNat ++ fracDigits (q * 10 - (d : ℚ)) n

/-- JavaScript template-literal rendering of a number (terminating decimals). -/
def numToString (q : ℚ) : String :=
  let sign := if q < 0 then "-" else ""
  let a := |q|
  let ip := a.floor
  let fs := fracDigits (a - (ip : ℚ)) 20
  sign ++ toString ip.toNat ++ (if fs = "" then "" else "." ++ fs)

/-- A validated coordinate pair (result of weatherToolSchema.parse). -/
structure Coordinate where
  latitude : ℚ
  longitude : ℚ
deriving DecidableEq, Repr

/-- Embedding of z.number().min(lo).max(hi) applied to an optional JSON field:
missing, non-numeric and out-of-range values each yield a descriptive zod
issue message. -/
def zodParseNumber (field : String) (lo hi : ℚ) (v : Option Json) : Except String ℚ :=
  match v with
  | none => .error (field ++ ": Required")
  | some (.num q) =>
      if q < lo then
        .error (field ++ ": Number must be greater than or equal to " ++ numToString lo)
      else if hi < q then
        .error (field ++ ": Number must be less than or equal to " ++ numToString hi)
      else
        .ok q
  | some _ => .error (field ++ ": Expected number")

/-- Aggregation of the two field results the way a ZodError collects the
issues of every failing field. -/
def combineFields : Except String ℚ → Except String ℚ → Except (List String) Coordinate
  | .ok lat, .ok lon => .ok ⟨lat, lon⟩
  | .error i, .ok _ => .error [i]
  | .ok _, .error j => .error [j]
  | .error i, .error j => .error [i, j]

/-- Embedding of weatherToolSchema.parse (lines 32 to 35): an object with a
numeric latitude in [-90, 90] and a numeric longitude in [-180, 180]; zod
reports the issues of both fields. -/
def weatherToolSchemaParse (args : Json) : Except (List String) Coordinate :=
  match args with
  | .obj _ =>
      combineFields (zodParseNumber "latitude" (-90) 90 (args.lookup "latitude"))
        (zodParseNumber "longitude" (-180) 180 (args.lookup "longitude"))
  | _ => .error ["Expected object"]

/-- Rendering of a ZodError message as the human-readable issue list. -/
def zodErrorMessage (issues : List String) : String :=
  String.intercalate "; " issues

/-- MCP error codes used by the source. -/
inductive ErrorCode where
  | methodNotFound : ErrorCode
  | invalidParams : ErrorCode
  | internalError : ErrorCode
deriving DecidableEq, Repr

/-- An McpError thrown by the call-tool handler. -/
structure McpError where
  code : ErrorCode
  message : String
deriving DecidableEq, Repr

/-- One element of the weather array of the upstream payload. -/
structure WeatherEntry where
  description : String
deriving DecidableEq, Repr

/-- The current field of the upstream one-call payload (lines 98 to 105). -/
structure OneCallCurrent where
  temp : ℚ
  humidity : ℚ
  wind_speed : ℚ
  weather : List WeatherEntry
deriving DecidableEq, Repr

/-- Outcome of the outbound fetch: a non-ok HTTP response with its status, or
a successful response whose JSON body has the given current field. -/
inductive FetchResponse where
  | httpError (status : Nat) (statusText : String) : FetchResponse
  | success (current : OneCallCurrent) : FetchResponse

/-- The process-wide configuration holding the API credential. -/
structure Config where
  apiKey : String
deriving DecidableEq, Repr

/-- Startup credential load (lines 15 to 19): reading the environment variable
OPENWEATHER_API_KEY and throwing when it is falsy (absent or empty). -/
def startup (env : String → Option String) : Except String Config :=
  match env "OPENWEATHER_API_KEY" with
  | none => .error "OPENWEATHER_API_KEY environment variable is required"
  | some k =>
      if k = "" then .error "OPENWEATHER_API_KEY environment variable is required"
      else .ok ⟨k⟩

/-- The upstream request URL built at line 90. -/
def buildUrl (cfg : Config) (latitude longitude : ℚ) : String :=
  "https://api.openweathermap.org/data/3.0/onecall?lat=" ++ numToString latitude ++
    "&lon=" ++ numToString longitude ++ "&exclude=minutely,hourly,daily,alerts&appid=" ++
    cfg.apiKey ++ "&units=metric"

/-- The weather report record built at lines 110 to 116.  The JS expression
for the description also replaces an empty description string by Unknown,
since the empty string is falsy. -/
structure WeatherReport where
  description : String
  temperature : ℚ
  humidity : ℚ
  windSpeed : ℚ
  location : String
deriving DecidableEq, Repr

/-- Construction of the weather report from the upstream current field and
the validated coordinates (lines 110 to 116). -/
def mkWeatherReport (cur : OneCallCurrent) (latitude longitude : ℚ) : WeatherReport :=
  { description :=
      match cur.weather.head? with
      | some w => if w.description = "" then "Unknown" else w.description
      | none => "Unknown"
    temperature := round1 cur.temp
    humidity := cur.humidity
    windSpeed := round1 cur.wind_speed
    location := numToString latitude ++ ", " ++ numToString longitude }

/-- The multi-line textual template of lines 122 to 126. -/
def renderReport (w : WeatherReport) : String :=
  "Weather at coordinates " ++ w.location ++ ":\n• Conditions: " ++ w.description ++
    "\n• Temperature: " ++ numToString w.temperature ++ "°C\n• Humidity: " ++
    numToString w.humidity ++ "%\n• Wind Speed: " ++ numToString w.windSpeed ++ " m/s"

/-- One item of the content array of a call-tool result. -/
structure ContentItem where
  type : String
  text : String
deriving DecidableEq, Repr

/-- The value returned by the call-tool handler on success (lines 118 to 129). -/
structure CallToolResult where
  content : List ContentItem
deriving DecidableEq, Repr

/-- Embedding of the CallToolRequestSchema handler (lines 80 to 141), given
the loaded configuration and a fetch oracle from the request URL to the HTTP
outcome.  The second component counts the outbound fetch calls performed.
A thrown McpError is an Except.error: unknown tool name before the try block;
inside it, a ZodError becomes InvalidParams and a non-ok HTTP response throws
an Error that the catch block rewraps as InternalError. -/
def callToolHandler (cfg : Config) (fetch : String → FetchResponse)
    (name : String) (args : Json) : Except McpError CallToolResult × Nat :=
  if name ≠ "get_weather" then
    (.error ⟨.methodNotFound, "Unknown tool: " ++ name⟩, 0)
  else
    match weatherToolSchemaParse args with
    | .error issues =>
        (.error ⟨.invalidParams, "Invalid parameters: " ++ zodErrorMessage issues⟩, 0)
    | .ok coord =>
        match fetch (buildUrl cfg coord.latitude coord.longitude) with
        | .httpError status statusText =>
            (.error ⟨.internalError,
              "Error fetching weather data: Weather API returned " ++
                toString status ++ ": " ++ statusText⟩, 1)
        | .success cur =>
            let w := mkWeatherReport cur coord.latitude coord.longitude
            (.ok ⟨[⟨"text", renderReport w⟩]⟩, 1)

/-- The fixed result of the ListToolsRequestSchema handler (lines 51 to 78),
as a JSON value. -/
def toolsListJson : Json :=
  .obj [("tools", .arr [.obj [
    ("name", .str "get_weather"),
    ("description", .str "Get current weather for a location using coordinates"),
    ("inputSchema", .obj [
      ("type", .str "object"),
      ("properties", .obj [
        ("latitude", .obj [("type", .str "number"), ("minimum", .num (-90)),
          ("maximum", .num 90), ("description", .str "Latitude coordinate")]),
        ("longitude", .obj [("type", .str "number"), ("minimum", .num (-180)),
          ("maximum", .num 180), ("description", .str "Longitude coordinate")])]),
      ("required", .arr [.str "latitude", .str "longitude"])])]])]

/-- JSON rendering of a successful call-tool result. -/
def resultToJson (r : CallToolResult) : Json :=
  .obj [("content", .arr (r.content.map (fun item =>
    Json.obj [("type", .str item.type), ("text", .str item.text)])))]

/-- Dispatch of server.request(request, CallToolRequestSchema) at line 166,
modelled as invoking the registered call-tool handler on the params of the
request; a request without a string tool name reaches the unknown-tool throw
of the handler with an empty name. -/
def serverRequestCall (cfg : Config) (fetch : String → FetchResponse)
    (req : Json) : Except McpError Json :=
  let params := (req.lookup "params").getD .null
  let name :=
    match params.lookup "name" with
    | some (.str s) => s
    | _ => ""
  let args := (params.lookup "arguments").getD .null
  ((callToolHandler cfg fetch name args).1).map resultToJson

/-- A JSON-RPC shaped object: the jsonrpc tag, the id when present (an absent
id is an undefined property that JSON.stringify drops), then the given
fields. -/
def jsonRpcObj (id : Option Json) (rest : List (String × Json)) : Json :=
  .obj ([("jsonrpc", Json.str "2.0")] ++
    (match id with
     | some v => [("id", v)]
     | none => []) ++ rest)

/-- The fixed Method-not-found response object built at lines 168 to 172. -/
def methodNotFoundJson (id : Option Json) : Json :=
  jsonRpcObj id [("error", .obj [("code", .num (-32601)), ("message", .str "Method not found")])]

/-- The fixed per-line catch response of lines 184 to 188. -/
def parseErrorJson : Json :=
  .obj [("jsonrpc", .str "2.0"), ("id", .null),
    ("error", .obj [("code", .num (-32700)), ("message", .str "Parse error")])]

/-- The method dispatch of lines 160 to 173 on a parsed request line: the two
string comparisons against tools/list and tools/call, any other method value
yielding the fixed Method-not-found object. -/
def dispatchLine (cfg : Config) (fetch : String → FetchResponse)
    (req : Json) : Except McpError Json :=
  match req.lookup "method" with
  | some (.str m) =>
      if m = "tools/list" then .ok toolsListJson
      else if m = "tools/call" then serverRequestCall cfg fetch req
      else .ok (methodNotFoundJson (req.lookup "id"))
  | _ => .ok (methodNotFoundJson (req.lookup "id"))

/-- One line of the request body after blank filtering: either JSON.parse
throws on it, or it parses to a JSON value. -/
inductive Line where
  | malformed : Line
  | request (req : Json) : Line

/-- Processing of one request line (lines 155 to 191): on a parse success the
dispatch result, whatever it is, is wrapped under the result key of a fresh
JSON-RPC envelope; any throw, from JSON.parse or from the dispatch, lands in
the same catch block and yields the fixed parse-error response. -/
def processLine (cfg : Config) (fetch : String → FetchResponse) : Line → Json
  | .malformed => parseErrorJson
  | .request req =>
      match dispatchLine cfg fetch req with
      | .ok resp => jsonRpcObj (req.lookup "id") [("result", resp)]
      | .error _ => parseErrorJson

/-- The batch loop: one response line per request line, in order. -/
def mcpBatch (cfg : Config) (fetch : String → FetchResponse) (lines : List Line) : List Json :=
  lines.map (processLine cfg fetch)

/-- Outcome of a POST to /mcp: the 400 error body, or the ordered list of
newline-delimited response values. -/
inductive PostResult where
  | badRequest (error : String) : PostResult
  | ok (responses : List Json) : PostResult

/-- The /mcp route (lines 144 to 200): an empty body is rejected with a 400
object, otherwise the body is split on newlines, blank lines are dropped, and
each remaining line is parsed (through the given JSON.parse oracle) and
processed. -/
def mcpPost (cfg : Config) (fetch : String → FetchResponse)
    (parseLine : String → Line) (body : String) : PostResult :=
  if body = "" then .badRequest "No request body"
  else
    let lines := (body.splitOn "\n").filter (fun l => l.trim ≠ "")
    .ok (mcpBatch cfg fetch (lines.map parseLine))

/-- Whether the character list s starts with the character list p. -/
def listStartsWith : List Char → List Char → Bool
  | _, [] => true
  | [], _ :: _ => false
  | c :: cs, p :: ps => c == p && listStartsWith cs ps

/-- Whether the character list p occurs contiguously inside s. -/
def listContains (s p : List Char) : Bool :=
  match s with
  | [] => listStartsWith [] p
  | _ :: tail => listStartsWith s p || listContains tail p

/-- Whether the string pat occurs as a substring of s. -/
def strContains (s pat : String) : Bool :=
  listContains s.toList pat.toList

lemma listStartsWith_self_append (p b : List Char) : listStartsWith (p ++ b) p = true := by
  induction p with
  | nil => simp [listStartsWith]
  | cons c cs ih => simp [listStartsWith, ih]

lemma listContains_nil_pat (s : List Char) : listContains s [] = true := by
  cases s with
  | nil => rfl
  | cons c cs => simp [listContains, listStartsWith]

lemma listContains_append_mid (a p b : List Char) : listContains (a ++ (p ++ b)) p = true := by
  induction a with
  | nil =>
      cases p with
      | nil => simpa using listContains_nil_pat b
      | cons q qs =>
          have h := listStartsWith_self_append (q :: qs) b
          simp only [List.cons_append] at h
          show listContains (q :: (qs ++ b)) (q :: qs) = true
          simp [listContains, h]
  | cons x as ih =>
      show listContains (x :: (as ++ (p ++ b))) p = true
      simp [listContains, ih]

lemma strContains_of_eq_append (s a pat b : String) (h : s = a ++ (pat ++ b)) :
    strContains s pat = true := by
  subst h
  show listContains (a.toList ++ (pat.toList ++ b.toList)) pat.toList = true
  exact listContains_append_mid a.toList pat.toList b.toList

lemma combineFields_error_left (i : String) (z : Except String ℚ) :
    ∃ issues, combineFields (.error i) z = .error issues := by
  cases z <;> exact ⟨_, rfl⟩

lemma combineFields_error_right (z : Except String ℚ) (j : String) :
    ∃ issues, combineFields z (.error j) = .error issues := by
  cases z <;> exact ⟨_, rfl⟩

/-! Concrete fixtures used by witnesses and counterexamples. -/

/-- The upstream success payload of the first testable property. -/
def payloadClear : OneCallCurrent := ⟨15.04, 80, 3.6, [⟨"clear sky"⟩]⟩

/-- The tool arguments for the San Francisco coordinates. -/
def argsSF : Json := .obj [("latitude", .num 37.7749), ("longitude", .num (-122.4194))]

/-- A fetch oracle answering every request with HTTP 500. -/
def fetch500 : String → FetchResponse := fun _ => .httpError 500 "Internal Server Error"

/-- A fetch oracle answering every request with the clear-sky payload. -/
def fetchClear : String → FetchResponse := fun _ => .success payloadClear

/-- A parsed request line with an unknown method. -/
def reqPing : Json :=
  .obj [("jsonrpc", .str "2.0"), ("id", .num 1), ("method", .str "ping")]

/-- The fixed Method-not-found error object of lines 171. -/
def errObj32601 : Json :=
  .obj [("code", .num (-32601)), ("message", .str "Method not found")]

/-- C1: on the mocked success payload with current temp 15.04, humidity 80,
wind speed 3.6 and description clear sky, at coordinates
(37.7749, -122.4194), the report carries temperature 15.0 (one decimal),
humidity 80, wind speed 3.6 (one decimal), description clear sky and
location 37.7749, -122.4194, and the handler renders exactly the multi-line
text containing those values. -/
theorem claim1_report_values :
    (mkWeatherReport payloadClear 37.7749 (-122.4194)).temperature = 15.0 ∧
    (mkWeatherReport payloadClear 37.7749 (-122.4194)).humidity = 80 ∧
    (mkWeatherReport payloadClear 37.7749 (-122.4194)).windSpeed = 3.6 ∧
    (mkWeatherReport payloadClear 37.7749 (-122.4194)).description = "clear sky" ∧
    (mkWeatherReport payloadClear 37.7749 (-122.4194)).location = "37.7749, -122.4194" ∧
    callToolHandler ⟨"test-key"⟩ fetchClear "get_weather" argsSF =
      (.ok ⟨[⟨"text", "Weather at coordinates 37.7749, -122.4194:\n• Conditions: clear sky\n• Temperature: 15°C\n• Humidity: 80%\n• Wind Speed: 3.6 m/s"⟩]⟩, 1) := by
  refine ⟨?_, ?_, ?_, ?_, ?_, ?_⟩ <;> with_unfolding_all rfl

/-- C2: every numeric latitude in [-90, 90] together with every numeric
longitude in [-180, 180] validates, and the validated coordinate carries
exactly the input values. -/
theorem claim2_validation_passthrough (lat lon : ℚ)
    (h1 : -90 ≤ lat) (h2 : lat ≤ 90) (h3 : -180 ≤ lon) (h4 : lon ≤ 180) :
    weatherToolSchemaParse (.obj [("latitude", .num lat), ("longitude", .num lon)]) =
      .ok ⟨lat, lon⟩ := by
  have hlat : zodParseNumber "latitude" (-90) 90 (some (.num lat)) = .ok lat := by
    simp only [zodParseNumber]
    rw [if_neg (not_lt.mpr h1), if_neg (not_lt.mpr h2)]
  have hlon : zodParseNumber "longitude" (-180) 180 (some (.num lon)) = .ok lon := by
    simp only [zodParseNumber]
    rw [if_neg (not_lt.mpr h3), if_neg (not_lt.mpr h4)]
  show combineFields (zodParseNumber "latitude" (-90) 90 (some (.num lat)))
      (zodParseNumber "longitude" (-180) 180 (some (.num lon))) = .ok ⟨lat, lon⟩
  rw [hlat, hlon]
  rfl

/-- Witness for C2 at the San Francisco coordinates. -/
theorem claim2_witness :
    weatherToolSchemaParse (.obj [("latitude", .num 37.7749), ("longitude", .num (-122.4194))]) =
      .ok ⟨37.7749, -122.4194⟩ :=
  claim2_validation_passthrough 37.7749 (-122.4194)
    (by norm_num) (by norm_num) (by norm_num) (by norm_num)

/-- C3: whenever schema validation fails, the handler throws InvalidParams
carrying the human-readable issue messages and performs no outbound call
(fetch count 0); and validation does fail on every out-of-range latitude or
longitude, on a missing field, and on a non-numeric field. -/
theorem claim3_invalid_params_no_fetch :
    (∀ (cfg : Config) (fetch : String → FetchResponse) (args : Json) (issues : List String),
        weatherToolSchemaParse args = .error issues →
        callToolHandler cfg fetch "get_weather" args =
          (.error ⟨.invalidParams, "Invalid parameters: " ++ zodErrorMessage issues⟩, 0)) ∧
    (∀ lat lon : ℚ, lat < -90 ∨ 90 < lat ∨ lon < -180 ∨ 180 < lon →
        ∃ issues, weatherToolSchemaParse
          (.obj [("latitude", .num lat), ("longitude", .num lon)]) = .error issues) ∧
    (∀ lon : ℚ, ∃ issues,
        weatherToolSchemaParse (.obj [("longitude", .num lon)]) = .error issues) ∧
    (∀ (s : String) (lon : ℚ), ∃ issues, weatherToolSchemaParse
        (.obj [("latitude", .str s), ("longitude", .num lon)]) = .error issues) := by
  refine ⟨?_, ?_, ?_, ?_⟩
  · intro cfg fetch args issues h
    unfold callToolHandler
    rw [if_neg (by simp), h]
  · intro lat lon h
    show ∃ issues, combineFields (zodParseNumber "latitude" (-90) 90 (some (.num lat)))
        (zodParseNumber "longitude" (-180) 180 (some (.num lon))) = .error issues
    rcases h with h | h | h | h
    · have hz : zodParseNumber "latitude" (-90) 90 (some (.num lat)) =
          .error ("latitude" ++ ": Number must be greater than or equal to " ++ numToString (-90)) := by
        simp only [zodParseNumber]; rw [if_pos h]
      rw [hz]; exact combineFields_error_left _ _
    · have hz : zodParseNumber "latitude" (-90) 90 (some (.num lat)) =
          .error ("latitude" ++ ": Number must be less than or equal to " ++ numToString 90) := by
        have hge : ¬ lat < -90 := not_lt.mpr (le_of_lt (lt_trans (by norm_num) h))
        simp only [zodParseNumber]; rw [if_neg hge, if_pos h]
      rw [hz]; exact combineFields_error_left _ _
    · have hz : zodParseNumber "longitude" (-180) 180 (some (.num lon)) =
          .error ("longitude" ++ ": Number must be greater than or equal to " ++ numToString (-180)) := by
        simp only [zodParseNumber]; rw [if_pos h]
      rw [hz]; exact combineFields_error_right _ _
    · have hz : zodParseNumber "longitude" (-180) 180 (some (.num lon)) =
          .error ("longitude" ++ ": Number must be less than or equal to " ++ numToString 180) := by
        have hge : ¬ lon < -180 := not_lt.mpr (le_of_lt (lt_trans (by norm_num) h))
        simp only [zodParseNumber]; rw [if_neg hge, if_pos h]
      rw [hz]; exact combineFields_error_right _ _
  · intro lon
    show ∃ issues, combineFields (.error ("latitude" ++ ": Required"))
        (zodParseNumber "longitude" (-180) 180 (some (.num lon))) = .error issues
    exact combineFields_error_left _ _
  · intro s lon
    show ∃ issues, combineFields (.error ("latitude" ++ ": Expected number"))
        (zodParseNumber "longitude" (-180) 180 (some (.num lon))) = .error issues
    exact combineFields_error_left _ _

/-- Witness for C3: latitude 91 is rejected with an InvalidParams error
naming the violated bound, with zero outbound calls. -/
theorem claim3_witness :
    callToolHandler ⟨"test-key"⟩ fetch500 "get_weather"
        (.obj [("latitude", .num 91), ("longitude", .num 0)]) =
      (.error ⟨.invalidParams,
        "Invalid parameters: latitude: Number must be less than or equal to 90"⟩, 0) :=
  claim3_invalid_params_no_fetch.1 ⟨"test-key"⟩ fetch500
    (.obj [("latitude", .num 91), ("longitude", .num 0)])
    ["latitude: Number must be less than or equal to 90"] (by with_unfolding_all rfl)

/-- C4: whenever the upstream responds with a non-success HTTP status, the
handler throws InternalError with a message embedding the status code (the
message literally contains the decimal rendering of the status), after
exactly one outbound call. -/
theorem claim4_upstream_error_status (cfg : Config) (status : Nat) (statusText : String)
    (args : Json) (coord : Coordinate)
    (h : weatherToolSchemaParse args = .ok coord) :
    callToolHandler cfg (fun _ => .httpError status statusText) "get_weather" args =
      (.error ⟨.internalError,
        "Error fetching weather data: Weather API returned " ++ toString status ++
          ": " ++ statusText⟩, 1) ∧
    strContains ("Error fetching weather data: Weather API returned " ++ toString status ++
        ": " ++ statusText) (toString status) = true := by
  constructor
  · unfold callToolHandler
    rw [if_neg (by simp), h]
  · exact strContains_of_eq_append _ "Error fetching weather data: Weather API returned "
      (toString status) (": " ++ statusText) (by simp [String.append_assoc])

/-- Witness for C4: an HTTP 500 upstream response produces an InternalError
whose message contains the string 500. -/
theorem claim4_witness :
    callToolHandler ⟨"test-key"⟩ fetch500 "get_weather" argsSF =
      (.error ⟨.internalError,
        "Error fetching weather data: Weather API returned " ++ toString (500 : Nat) ++
          ": " ++ "Internal Server Error"⟩, 1) ∧
    strContains ("Error fetching weather data: Weather API returned " ++ toString (500 : Nat) ++
        ": " ++ "Internal Server Error") (toString (500 : Nat)) = true :=
  claim4_upstream_error_status ⟨"test-key"⟩ 500 "Internal Server Error" argsSF
    ⟨37.7749, -122.4194⟩ (by with_unfolding_all rfl)

/-- C5: on every upstream success payload whose weather list is empty, the
handler succeeds, the description defaults to the literal Unknown, and the
numeric fields are taken from the payload with no validation whatsoever
(every rational value passes through, humidity verbatim, temperature and
wind speed only rounded to one decimal as the code does). -/
theorem claim5_empty_weather_defaults (cfg : Config) (temp hum wind : ℚ)
    (args : Json) (coord : Coordinate)
    (h : weatherToolSchemaParse args = .ok coord) :
    callToolHandler cfg (fun _ => .success ⟨temp, hum, wind, []⟩) "get_weather" args =
      (.ok ⟨[⟨"text", renderReport (mkWeatherReport ⟨temp, hum, wind, []⟩
        coord.latitude coord.longitude)⟩]⟩, 1) ∧
    (mkWeatherReport ⟨temp, hum, wind, []⟩ coord.latitude coord.longitude).description = "Unknown" ∧
    (mkWeatherReport ⟨temp, hum, wind, []⟩ coord.latitude coord.longitude).temperature = round1 temp ∧
    (mkWeatherReport ⟨temp, hum, wind, []⟩ coord.latitude coord.longitude).humidity = hum ∧
    (mkWeatherReport ⟨temp, hum, wind, []⟩ coord.latitude coord.longitude).windSpeed = round1 wind := by
  refine ⟨?_, rfl, rfl, rfl, rfl⟩
  unfold callToolHandler
  rw [if_neg (by simp), h]

/-- Witness for C5 at the San Francisco coordinates with an empty weather
list. -/
theorem claim5_witness :
    callToolHandler ⟨"test-key"⟩ (fun _ => .success ⟨21.5, 55, 2.4, []⟩) "get_weather" argsSF =
      (.ok ⟨[⟨"text", renderReport (mkWeatherReport ⟨21.5, 55, 2.4, []⟩
        (Coordinate.mk 37.7749 (-122.4194)).latitude
        (Coordinate.mk 37.7749 (-122.4194)).longitude)⟩]⟩, 1) ∧
    (mkWeatherReport ⟨21.5, 55, 2.4, []⟩ (Coordinate.mk 37.7749 (-122.4194)).latitude
      (Coordinate.mk 37.7749 (-122.4194)).longitude).description = "Unknown" ∧
    (mkWeatherReport ⟨21.5, 55, 2.4, []⟩ (Coordinate.mk 37.7749 (-122.4194)).latitude
      (Coordinate.mk 37.7749 (-122.4194)).longitude).temperature = round1 21.5 ∧
    (mkWeatherReport ⟨21.5, 55, 2.4, []⟩ (Coordinate.mk 37.7749 (-122.4194)).latitude
      (Coordinate.mk 37.7749 (-122.4194)).longitude).humidity = 55 ∧
    (mkWeatherReport ⟨21.5, 55, 2.4, []⟩ (Coordinate.mk 37.7749 (-122.4194)).latitude
      (Coordinate.mk 37.7749 (-122.4194)).longitude).windSpeed = round1 2.4 :=
  claim5_empty_weather_defaults ⟨"test-key"⟩ 21.5 55 2.4 argsSF
    ⟨37.7749, -122.4194⟩ (by with_unfolding_all rfl)

/-- C8: when the credential is absent from the environment, startup throws
(so the service never becomes ready); when startup succeeds, the
configuration holds exactly the credential read from the environment, and
every upstream request URL of the process embeds that same credential (the
configuration is an immutable value: nothing in the program can change it
during the process lifetime). -/
theorem claim8_credential_startup (env : String → Option String) :
    (env "OPENWEATHER_API_KEY" = none →
      startup env = .error "OPENWEATHER_API_KEY environment variable is required") ∧
    (∀ cfg : Config, startup env = .ok cfg →
      env "OPENWEATHER_API_KEY" = some cfg.apiKey ∧
      ∀ latitude longitude : ℚ,
        strContains (buildUrl cfg latitude longitude) cfg.apiKey = true) := by
  constructor
  · intro h
    unfold startup
    rw [h]
  · intro cfg h
    constructor
    · unfold startup at h
      cases henv : env "OPENWEATHER_API_KEY" with
      | none => rw [henv] at h; simp at h
      | some k =>
          rw [henv] at h
          simp only [] at h
          by_cases hk : k = ""
          · rw [if_pos hk] at h; simp at h
          · rw [if_neg hk] at h
            rw [← Except.ok.inj h]
    · intro latitude longitude
      exact strContains_of_eq_append _
        ("https://api.openweathermap.org/data/3.0/onecall?lat=" ++ numToString latitude ++
          "&lon=" ++ numToString longitude ++ "&exclude=minutely,hourly,daily,alerts&appid=")
        cfg.apiKey "&units=metric" (by simp [buildUrl, String.append_assoc])

/-- Witness for C8: startup fails on an empty environment, and succeeds on an
environment carrying a credential, which the built URLs embed. -/
theorem claim8_witness :
    startup (fun _ => none) = .error "OPENWEATHER_API_KEY environment variable is required" ∧
    (fun _ => some "secret-key") "OPENWEATHER_API_KEY" = some (Config.mk "secret-key").apiKey ∧
    strContains (buildUrl ⟨"secret-key"⟩ 0 0) (Config.mk "secret-key").apiKey = true :=
  ⟨(claim8_credential_startup (fun _ => none)).1 rfl,
   ((claim8_credential_startup (fun _ => some "secret-key")).2
      ⟨"secret-key"⟩ (by with_unfolding_all rfl)).1,
   ((claim8_credential_startup (fun _ => some "secret-key")).2
      ⟨"secret-key"⟩ (by with_unfolding_all rfl)).2 0 0⟩

/-- C6 (counterexample): for a request line with method ping and id 1, the
emitted response line is neither the fixed Method-not-found error object
under a top-level error key nor that object directly under the result key:
the result key instead holds a second jsonrpc envelope around the error
object. -/
theorem claim6_counterexample :
    ¬ (processLine ⟨"test-key"⟩ fetch500 (.request reqPing) =
         jsonRpcObj (some (.num 1)) [("error", errObj32601)] ∨
       processLine ⟨"test-key"⟩ fetch500 (.request reqPing) =
         jsonRpcObj (some (.num 1)) [("result", errObj32601)]) := by
  intro h
  rcases h with h | h
  · exact absurd (congrArg (fun j => j.hasKey "result") h) (by with_unfolding_all decide)
  · exact absurd (congrArg (fun j => (j.sub "result").hasKey "code") h)
      (by with_unfolding_all decide)

/-- C6 (amended): every request line whose method is neither tools/list nor
tools/call is answered, like every other line, with the envelope
jsonrpc 2.0 / id / result, but the result field holds a full inner object
jsonrpc 2.0 / id / error whose error field is the fixed object code -32601,
message Method not found, rather than the error object sitting at the top
level of the envelope. -/
theorem claim6_unknown_method (cfg : Config) (fetch : String → FetchResponse) (req : Json)
    (h1 : req.lookup "method" ≠ some (.str "tools/list"))
    (h2 : req.lookup "method" ≠ some (.str "tools/call")) :
    processLine cfg fetch (.request req) =
      jsonRpcObj (req.lookup "id") [("result", methodNotFoundJson (req.lookup "id"))] := by
  have hd : dispatchLine cfg fetch req = .ok (methodNotFoundJson (req.lookup "id")) := by
    cases hm : req.lookup "method" with
    | none => simp [dispatchLine, hm]
    | some v =>
        cases v with
        | str m =>
            simp only [dispatchLine, hm]
            rw [if_neg (fun he => h1 (by rw [hm, he])),
              if_neg (fun he => h2 (by rw [hm, he]))]
        | null => simp [dispatchLine, hm]
        | bool b => simp [dispatchLine, hm]
        | num q => simp [dispatchLine, hm]
        | arr a => simp [dispatchLine, hm]
        | obj o => simp [dispatchLine, hm]
  simp only [processLine]
  rw [hd]

/-- Witness for C6 at the ping request line. -/
theorem claim6_witness :
    processLine ⟨"test-key"⟩ fetch500 (.request reqPing) =
      jsonRpcObj (reqPing.lookup "id") [("result", methodNotFoundJson (reqPing.lookup "id"))] :=
  claim6_unknown_method ⟨"test-key"⟩ fetch500 reqPing
    (fun h => absurd (Json.str.inj (Option.some.inj h)) (by decide))
    (fun h => absurd (Json.str.inj (Option.some.inj h)) (by decide))

/-- C7: a two-line batch made of one tools/call line whose dispatch succeeds
and one malformed line yields exactly two response lines in request order,
the wrapped successful result and the fixed parse-error object, in whichever
order the two lines come. -/
theorem claim7_two_line_batch (cfg : Config) (fetch : String → FetchResponse)
    (req : Json) (out : Json)
    (hm : req.lookup "method" = some (.str "tools/call"))
    (hd : serverRequestCall cfg fetch req = .ok out) :
    mcpBatch cfg fetch [.request req, .malformed] =
      [jsonRpcObj (req.lookup "id") [("result", out)], parseErrorJson] ∧
    mcpBatch cfg fetch [.malformed, .request req] =
      [parseErrorJson, jsonRpcObj (req.lookup "id") [("result", out)]] := by
  have hdl : dispatchLine cfg fetch req = .ok out := by
    simp [dispatchLine, hm, hd]
  have hp : processLine cfg fetch (.request req) =
      jsonRpcObj (req.lookup "id") [("result", out)] := by
    simp only [processLine]
    rw [hdl]
  constructor
  · simp only [mcpBatch, List.map]
    rw [hp]
    rfl
  · simp only [mcpBatch, List.map]
    rw [hp]
    rfl

/-- A valid tools/call request line for the San Francisco coordinates. -/
def reqCallSF : Json :=
  .obj [("jsonrpc", .str "2.0"), ("id", .num 2), ("method", .str "tools/call"),
    ("params", .obj [("name", .str "get_weather"), ("arguments", argsSF)])]

/-- Witness for C7: the valid call succeeds and the malformed line yields the
parse-error object, in both orders. -/
theorem claim7_witness :
    mcpBatch ⟨"test-key"⟩ fetchClear [.request reqCallSF, .malformed] =
      [jsonRpcObj (reqCallSF.lookup "id") [("result",
        resultToJson ⟨[⟨"text", "Weather at coordinates 37.7749, -122.4194:\n• Conditions: clear sky\n• Temperature: 15°C\n• Humidity: 80%\n• Wind Speed: 3.6 m/s"⟩]⟩)],
       parseErrorJson] ∧
    mcpBatch ⟨"test-key"⟩ fetchClear [.malformed, .request reqCallSF] =
      [parseErrorJson,
       jsonRpcObj (reqCallSF.lookup "id") [("result",
        resultToJson ⟨[⟨"text", "Weather at coordinates 37.7749, -122.4194:\n• Conditions: clear sky\n• Temperature: 15°C\n• Humidity: 80%\n• Wind Speed: 3.6 m/s"⟩]⟩)]] :=
  claim7_two_line_batch ⟨"test-key"⟩ fetchClear reqCallSF _
    (by with_unfolding_all rfl) (by with_unfolding_all rfl)

/-- C9: every line that parses but whose dispatch throws is answered with the
very parse-error object used for unparsable lines; the per-line catch block
does not distinguish the two failure kinds. -/
theorem claim9_dispatch_throw_parse_error (cfg : Config) (fetch : String → FetchResponse)
    (req : Json) (e : McpError)
    (h : dispatchLine cfg fetch req = .error e) :
    processLine cfg fetch (.request req) = parseErrorJson ∧
    processLine cfg fetch (.request req) = processLine cfg fetch .malformed := by
  have hp : processLine cfg fetch (.request req) = parseErrorJson := by
    simp only [processLine]
    rw [h]
  exact ⟨hp, hp.trans rfl⟩

/-- A tools/call request line carrying an out-of-range latitude. -/
def reqCallBad : Json :=
  .obj [("jsonrpc", .str "2.0"), ("id", .num 3), ("method", .str "tools/call"),
    ("params", .obj [("name", .str "get_weather"),
      ("arguments", .obj [("latitude", .num 91), ("longitude", .num 0)])])]

/-- Witness for C9: a tools/call with latitude 91 throws InvalidParams in the
dispatch, yet the emitted line is the parse-error object. -/
theorem claim9_witness :
    processLine ⟨"test-key"⟩ fetch500 (.request reqCallBad) = parseErrorJson ∧
    processLine ⟨"test-key"⟩ fetch500 (.request reqCallBad) =
      processLine ⟨"test-key"⟩ fetch500 .malformed :=
  claim9_dispatch_throw_parse_error ⟨"test-key"⟩ fetch500 reqCallBad
    ⟨.invalidParams, "Invalid parameters: " ++ zodErrorMessage
      ["latitude: Number must be less than or equal to 90"]⟩
    (by with_unfolding_all rfl)

/-- C10: an empty body is rejected with the 400 No-request-body error; a
non-empty body has its blank and whitespace-only lines dropped, and exactly
one response line is emitted per remaining line, so the number of response
lines equals the number of non-blank request lines. -/
theorem claim10_blank_line_filtering (cfg : Config) (fetch : String → FetchResponse)
    (parseLine : String → Line) (body : String) :
    (body = "" → mcpPost cfg fetch parseLine body = .badRequest "No request body") ∧
    (body ≠ "" →
      mcpPost cfg fetch parseLine body =
        .ok (mcpBatch cfg fetch
          (((body.splitOn "\n").filter (fun l => l.trim ≠ "")).map parseLine)) ∧
      ∀ rs, mcpPost cfg fetch parseLine body = .ok rs →
        rs.length = ((body.splitOn "\n").filter (fun l => l.trim ≠ "")).length) := by
  constructor
  · intro h
    unfold mcpPost
    rw [if_pos h]
  · intro h
    have he : mcpPost cfg fetch parseLine body =
        .ok (mcpBatch cfg fetch
          (((body.splitOn "\n").filter (fun l => l.trim ≠ "")).map parseLine)) := by
      unfold mcpPost
      rw [if_neg h]
    refine ⟨he, ?_⟩
    intro rs hrs
    rw [he] at hrs
    rw [← PostResult.ok.inj hrs]
    simp [mcpBatch]

/-- Witness for C10: the empty body is rejected, and a body of one real line
plus a whitespace-only line and a trailing newline yields exactly one
response line. -/
theorem claim10_witness :
    mcpPost ⟨"test-key"⟩ fetch500 (fun _ => .malformed) "" = .badRequest "No request body" ∧
    mcpPost ⟨"test-key"⟩ fetch500 (fun _ => .malformed) "a\n \n" = .ok [parseErrorJson] := by
  constructor
  · exact (claim10_blank_line_filtering ⟨"test-key"⟩ fetch500 (fun _ => .malformed) "").1 rfl
  · have h := ((claim10_blank_line_filtering ⟨"test-key"⟩ fetch500
      (fun _ => .malformed) "a\n \n").2 (by decide)).1
    rw [h]
    with_unfolding_all rfl

end WeatherMCP
